import Mathlib

/-!
Verification of the AutoCustomLyX configuration deployment scripts
(`install.py`, `Script.py`, `test.py`) against their specification.

Each definition below is a shallow embedding of one function or code
block of the repository; the doc comment of each definition names the
source file and lines it translates.
-/

set_option maxRecDepth 4000

/-! ## Content Patcher (install.py, `__main__` block, lines 322-344)

`install.py` opens the `preferences` file and `bind/user.bind` with mode
`"a"` and writes a fixed directive block.  Appending a block to a file is
modelled as string concatenation of the old content with the block. -/

/-- The block appended to `preferences` by install.py lines 325-335:
the Python source is a triple-quoted literal, `.strip()`-ed and with a
final newline added; `tb` is the interpolated TeX Live binary directory. -/
def texBlock (tb : String) : String :=
  "\\kbmap true\n\\kbmap_primary \"null\"\n\\kbmap_secondary \"hebrew\"\n\\visual_cursor true\n\\path_prefix \"" ++ tb ++ "\"\n"

/-- The block appended to `bind/user.bind` by install.py lines 337-344. -/
def bindBlock : String :=
  "\\bind \"A-space\" \"language hebrew\"\n"

/-- install.py lines 325-335: `open(preferences_file, "a")` followed by a
write appends `texBlock` to whatever the file held before; there is no
presence check of any kind in the source. -/
def patch_preferences (tb text : String) : String :=
  text ++ texBlock tb

/-- install.py lines 337-344: `open(user_bind_file, "a")` followed by a
write appends `bindBlock` unconditionally. -/
def patch_user_bind (text : String) : String :=
  text ++ bindBlock

/-- Number of (possibly overlapping) occurrences of the pattern in the
character list. -/
def countOccurAux (pat : List Char) : List Char → Nat
  | [] => 0
  | c :: rest =>
      (if pat.isPrefixOf (c :: rest) then 1 else 0) + countOccurAux pat rest

/-- Number of occurrences of a nonempty pattern in a string. -/
def countOccur (pat s : String) : Nat :=
  countOccurAux pat.toList s.toList

/-- The path-prefix directive marker. -/
def pathPrefixMarker : String := "\\path_prefix"

/-! ## Reconciliation Controller (Script.py, `sync_configuration`, lines 57-80)

The destination is `FLATPAK_CONFIG_DIR`; its state is modelled by explicit
fields.  `git pull` on a clean clone with the remote unchanged brings the
working tree to the remote content; `git clone` produces a tree with the
remote content and a `.git` directory recording the remote URL. -/

/-- Script.py line 11: the configured git remote. -/
def GIT_REPO_URL : String := "https://github.com/StupidityInc/lyx-config.git"

/-- A remote repository: its URL and the content of its tip. -/
structure Remote where
  url : String
  content : String
  deriving DecidableEq, Repr

/-- The parts of the filesystem `sync_configuration` reads and writes:
the destination directory (`FLATPAK_CONFIG_DIR`), its parent, the backup
root (`BACKUP_DIR`) and the backups under it (name, content pairs).
`destHasGit` and `destRemote` are meaningful only when `destExists`. -/
structure FileSystem where
  parentExists : Bool
  destExists : Bool
  destHasGit : Bool
  destRemote : String
  destContent : String
  backupRootExists : Bool
  backups : List (String × String)
  deriving DecidableEq, Repr

/-- The three destination states of the spec, read off the code's
branching: `.git` present under the destination, destination present
without `.git`, destination absent. -/
inductive DestState
  | Absent
  | VersionControlled
  | PlainData
  deriving DecidableEq, Repr

/-- Script.py lines 67-72: the controller branches on
`(FLATPAK_CONFIG_DIR / ".git").exists()` and `FLATPAK_CONFIG_DIR.exists()`
only — the remote URL of an existing clone is never consulted. -/
def detect (fs : FileSystem) : DestState :=
  if fs.destExists && fs.destHasGit then DestState.VersionControlled
  else if fs.destExists then DestState.PlainData
  else DestState.Absent

/-- Script.py lines 57-80, `sync_configuration`:
lines 62-64 create the parent directory when missing;
lines 67-70: if `.git` exists, `git pull` (modelled as fast-forwarding the
content to the remote, the setting of the claims under proof);
lines 72-77: if the directory exists without `.git`, create `BACKUP_DIR`
(`mkdir(exist_ok=True)`) and `shutil.move` the whole tree to
`BACKUP_DIR / ("lyx_backup_" + timestamp)`;
lines 79-80: `git clone GIT_REPO_URL FLATPAK_CONFIG_DIR`.
`now` is the `datetime.now().strftime("%Y%m%d_%H%M%S")` timestamp. -/
def sync_configuration (now : String) (remote : Remote) (fs : FileSystem) :
    FileSystem :=
  let fs1 := { fs with parentExists := true }
  if fs1.destExists && fs1.destHasGit then
    { fs1 with destContent := remote.content }
  else if fs1.destExists then
    let fs2 := { fs1 with
      backupRootExists := true,
      backups := ("lyx_backup_" ++ now, fs1.destContent) :: fs1.backups,
      destExists := false }
    { fs2 with destExists := true, destHasGit := true,
               destRemote := remote.url, destContent := remote.content }
  else
    { fs1 with destExists := true, destHasGit := true,
               destRemote := remote.url, destContent := remote.content }

/-! ## Location resolution (test.py lines 22-52, install.py lines 149-167) -/

/-- `os.path.join` on the POSIX hosts the scripts target. -/
def joinPath (a b : String) : String := a ++ "/" ++ b

/-- test.py lines 7-18 and install.py lines 14-25: the four asset URLs. -/
def LYX_PREFRENCES_URL : String :=
  "https://raw.githubusercontent.com/StupidityInc/lyx-config/main/preferences"

def LYX_BIND_URL : String :=
  "https://raw.githubusercontent.com/StupidityInc/lyx-config/main/bind/user.bind"

def LYX_MACROS_URL : String :=
  "https://raw.githubusercontent.com/StupidityInc/lyx-config/main/Macros/Macros_Standard.lyx"

def LYX_TEMPLATE_URL : String :=
  "https://raw.githubusercontent.com/StupidityInc/lyx-config/main/Templates/Assignments.lyx"

/-- The value of `sys.platform` the resolvers branch on. -/
inductive HostPlatform
  | win32
  | darwin
  | linux
  deriving DecidableEq, Repr

/-- The parts of the host the resolvers read: the platform, the home
directory, whether the flatpak config path exists, the `APPDATA`
environment variable (`none` when unset) and the directory listings the
resolvers enumerate. -/
structure Host where
  platform : HostPlatform
  home : String
  flatpakPathExists : Bool
  appdata : Option String
  appdataContents : List String
  appSupportExists : Bool
  appSupportContents : List String
  deriving Repr

/-- test.py line 25 and Script.py line 20: the flatpak config root
under the user's home. -/
def flatpakPath (h : Host) : String :=
  h.home ++ "/.var/app/org.lyx.LyX/config/lyx"

/-- `sorted([f for f in contents if f.startswith("LyX")])[-1]` when the
filtered list is nonempty: the lexicographically greatest entry starting
with "LyX" (test.py lines 34-37, 43-46; install.py lines 154-157,
160-165). -/
def latestLyX (contents : List String) : Option String :=
  (contents.filter (fun f => f.startsWith "LyX")).foldl
    (fun acc f =>
      match acc with
      | none => some f
      | some a => some (if a < f then f else a)) none

/-- test.py lines 22-52, `get_lyx_user_directory`: the flatpak path is
returned first whenever it exists (lines 25-27, a pure existence check);
otherwise win32 enumerates `APPDATA` (falling back to "LyX2.4", and
falling through to `return None` when `APPDATA` is unset), darwin
enumerates Application Support when it exists (falling back to
"LyX-2.4"), and any other platform returns `~/.lyx`. -/
def get_lyx_user_directory_test (h : Host) : Option String :=
  if h.flatpakPathExists then some (flatpakPath h)
  else
    match h.platform with
    | HostPlatform.win32 =>
        match h.appdata with
        | some roaming =>
            match latestLyX h.appdataContents with
            | some f => some (joinPath roaming f)
            | none => some (joinPath roaming "LyX2.4")
        | none => none
    | HostPlatform.darwin =>
        if h.appSupportExists then
          match latestLyX h.appSupportContents with
          | some f =>
              some (joinPath (h.home ++ "/Library/Application Support") f)
          | none =>
              some (joinPath (h.home ++ "/Library/Application Support") "LyX-2.4")
        else none
    | HostPlatform.linux => some (h.home ++ "/.lyx")

/-- install.py lines 149-167, `get_lyx_user_directory`: no flatpak check
at all.  win32 reads `os.environ["APPDATA"]` (a missing variable raises
`KeyError`, modelled as `none`) and falls through to an implicit
`return None` when no "LyX*" entry exists; darwin likewise; any other
platform returns `~/.lyx`. -/
def get_lyx_user_directory_install (h : Host) : Option String :=
  match h.platform with
  | HostPlatform.win32 =>
      match h.appdata with
      | some roaming =>
          match latestLyX h.appdataContents with
          | some f => some (joinPath roaming f)
          | none => none
      | none => none
  | HostPlatform.darwin =>
      match latestLyX h.appSupportContents with
      | some f => some (joinPath (h.home ++ "/Library/Application Support") f)
      | none => none
  | HostPlatform.linux => some (h.home ++ "/.lyx")

/-- A Linux host on which the flatpak config root exists and the home
directory is `/home/u`. -/
def hostLinuxSandbox : Host :=
  { platform := HostPlatform.linux
    home := "/home/u"
    flatpakPathExists := true
    appdata := none
    appdataContents := []
    appSupportExists := false
    appSupportContents := [] }

/-! ## Single-file fetch (test.py `download_file` lines 54-76,
install.py `download_github_file` lines 211-251) -/

/-- The outcome of the HTTP GET both fetchers perform: the full body on
success (both call sites read the entire response into memory before any
file is opened), or the exceptions `requests` / `urllib` raise —
a timeout, a connection error, a non-2xx status
(`response.raise_for_status()`), or a transfer interrupted mid-read. -/
inductive HttpFetch
  | ok (content : String)
  | timedOut
  | connError
  | httpError (code : Nat)
  | interrupted
  deriving DecidableEq, Repr

/-- Whether the GET returned a body. -/
def HttpFetch.isOk : HttpFetch → Bool
  | HttpFetch.ok _ => true
  | _ => false

/-- An HTTP GET request as issued by a fetcher: the URL and the timeout
argument passed to the client, `none` when no timeout is given. -/
structure HttpRequest where
  url : String
  timeout : Option Nat
  deriving DecidableEq, Repr

/-- install.py line 229: `requests.get(raw_url, timeout=5)`. -/
def download_github_file_request (raw_url : String) : HttpRequest :=
  { url := raw_url, timeout := some 5 }

/-- test.py line 70: `urllib.request.urlopen(github_raw_url)` — no
timeout argument, so the call may block indefinitely. -/
def download_file_request (github_raw_url : String) : HttpRequest :=
  { url := github_raw_url, timeout := none }

/-- How far the local write of the fetched body got: `completed`, or
interrupted after `k` bytes (disk full, kill, I/O error). -/
inductive WriteOutcome
  | completed
  | failedAfter (k : Nat)
  deriving DecidableEq, Repr

/-- The destination file after one download attempt, given its previous
content (`none` = absent).  Both fetchers (install.py lines 226-244,
test.py lines 68-73) first complete the GET entirely in memory, then
`open(local_path, 'wb')` — which truncates the destination — and write
the buffered body directly to the final path; there is no temporary file
and no rename.  A fetch-stage failure therefore leaves the destination
untouched, while an interruption during the local write leaves exactly
the first `k` bytes. -/
def destAfterDownload (oldDest : Option String) (fetch : HttpFetch)
    (write : WriteOutcome) : Option String :=
  match fetch with
  | HttpFetch.ok content =>
      match write with
      | WriteOutcome.completed => some content
      | WriteOutcome.failedAfter k => some (content.take k)
  | _ => oldDest

/-- The filesystem state `download_github_file` mutates: the directories
it created and the files it fully wrote. -/
structure InstallWorld where
  dirs : List String
  files : List (String × String)
  deriving DecidableEq, Repr

/-- install.py lines 211-251, `download_github_file`: the whole body is
one `try` whose `except Exception` prints the error and returns `False`
(lines 249-251).  Inside: empty `raw_url`, `folder_path` or `file_name`
raises `ValueError` (line 214-215); `os.makedirs` may raise `OSError`
(modelled by `mkdirOk`); `requests.get(raw_url, timeout=5)` may raise
(modelled by `fetch`); the write may raise `IOError` (modelled by
`writeOk`).  Returns `True` exactly when every step succeeded, and only
then records the written file. -/
def download_github_file (raw_url folder_path file_name : String)
    (mkdirOk : Bool) (fetch : HttpFetch) (writeOk : Bool)
    (w : InstallWorld) : Bool × InstallWorld :=
  if raw_url == "" || folder_path == "" || file_name == "" then (false, w)
  else if !mkdirOk then (false, w)
  else
    let w1 := { w with dirs := folder_path :: w.dirs }
    match fetch with
    | HttpFetch.ok content =>
        if writeOk then
          (true, { w1 with
            files := (joinPath folder_path file_name, content) :: w1.files })
        else (false, w1)
    | _ => (false, w1)

/-! ## test.py `download_file` (lines 54-76) and `__main__` (lines 80-114) -/

/-- The outcome of `urllib.request.urlopen(url).read()` for one URL. -/
inductive Fetch
  | ok (content : String)
  | err (msg : String)
  deriving DecidableEq, Repr

/-- The observable state test.py's main block builds: the files fully
written and the error lines printed. -/
structure TestWorld where
  files : List (String × String)
  errors : List String
  deriving DecidableEq, Repr

/-- test.py lines 54-76, `download_file`: `os.makedirs` failure is caught
(`except OSError`, lines 63-65), an error line is printed and the
function returns; any exception from the download/write block is caught
(`except Exception`, lines 75-76), an error line is printed and the
function returns.  On success the file is written at
`os.path.join(destination_folder, file_name)`.  It never raises and
returns no value. -/
def download_file (fetch : String → Fetch) (mkdirOk : String → Bool)
    (github_raw_url destination_folder file_name : String)
    (w : TestWorld) : TestWorld :=
  if !mkdirOk destination_folder then
    { w with errors := ("Error creating directory " ++ destination_folder) :: w.errors }
  else
    match fetch github_raw_url with
    | Fetch.ok content =>
        { w with files := (joinPath destination_folder file_name, content) :: w.files }
    | Fetch.err m =>
        { w with errors := ("Error downloading " ++ file_name ++ ": " ++ m) :: w.errors }

/-- test.py lines 97-111: the four (url, folder, file) triples downloaded
in order, relative to the resolved user directory. -/
def test_assets (dir : String) : List (String × String × String) :=
  [(LYX_PREFRENCES_URL, dir, "preferences"),
   (LYX_BIND_URL, joinPath dir "bind", "user.bind"),
   (LYX_MACROS_URL, joinPath dir "Macros", "Macros_Standard.lyx"),
   (LYX_TEMPLATE_URL, joinPath dir "templates", "Assignments.lyx")]

/-- test.py lines 80-114, the `__main__` block: when
`get_lyx_user_directory()` returns nothing, `sys.exit(1)` before any
asset is touched (lines 86-88); otherwise the four `download_file` calls
run unconditionally in sequence — nothing inspects their outcome — and
the script falls off the end with exit status 0. -/
def test_main (resolved : Option String) (fetch : String → Fetch)
    (mkdirOk : String → Bool) (w : TestWorld) : Nat × TestWorld :=
  match resolved with
  | none => (1, w)
  | some dir =>
      (0, (test_assets dir).foldl
        (fun acc t => download_file fetch mkdirOk t.1 t.2.1 t.2.2 acc) w)

/-- A fetch oracle under which every GET fails. -/
def failAllFetch : String → Fetch := fun _ => Fetch.err "connection refused"

/-- A directory-creation oracle under which every `makedirs` succeeds. -/
def allDirsOk : String → Bool := fun _ => true

/-- The state before test.py runs: no files written, nothing printed. -/
def emptyTestWorld : TestWorld := { files := [], errors := [] }

/-- Script.py lines 24-30, `run_command`: `subprocess.run(command,
check=check, shell=True)`; when `check` is set and the command fails,
the `CalledProcessError` handler calls `sys.exit(1)` — the whole process
stops.  The result is the exit code the process dies with, `none` when
execution continues. -/
def run_command (check : Bool) (commandSucceeds : Bool) : Option Nat :=
  if check && !commandSucceeds then some 1 else none

/-! ## install.py module level (lines 253-258) -/

/-- One observable side effect of executing install.py, at the
granularity the claims need: a single-file download, or one of the
`__main__` installation stages (install.py lines 261-451), kept
abstract. -/
inductive Effect
  | download (url folder name : String)
  | texliveSetup
  | lyxInstall
  | patchConfigFiles
  deriving DecidableEq, Repr

/-- The effects of install.py's `__main__` block (lines 261-451), in
order: TeX Live download/installation, LyX installation, then the
configuration-file patches. -/
def installMainEffects : List Effect :=
  [Effect.texliveSetup, Effect.lyxInstall, Effect.patchConfigFiles]

/-- The effect trace of executing install.py.  Module level runs both
when imported and when executed directly: after the module's constants
and `def` statements (no effects), the first statement executed is the call at
lines 254-258, `download_github_file(LYX_PREFRENCES_URL...,
'/home/uri', 'test')`; the `if __name__ == "__main__"` block runs only
when the script is executed directly. -/
def installModuleTrace (runAsMain : Bool) : List Effect :=
  Effect.download LYX_PREFRENCES_URL "/home/uri" "test"
    :: (if runAsMain then installMainEffects else [])

/-- Whether `q` lies at or under the directory `p`, on the byte level:
`q = p` or `p ++ "/"` is a proper path separator boundary before the
rest of `q`. -/
def pathUnderB (p q : String) : Bool :=
  p == q || (p ++ "/").toList.isPrefixOf q.toList

/-- A remote at the configured URL with fresh content. -/
def remoteMain : Remote := { url := GIT_REPO_URL, content := "fresh config" }

/-- A destination that is git-tracked but whose clone points at an
unrelated remote. -/
def fsGitOther : FileSystem :=
  { parentExists := true
    destExists := true
    destHasGit := true
    destRemote := "https://example.com/unrelated.git"
    destContent := "clone of the unrelated remote"
    backupRootExists := false
    backups := [] }

/-- A destination holding plain (untracked) data "X". -/
def fsPlainX : FileSystem :=
  { parentExists := true
    destExists := true
    destHasGit := false
    destRemote := ""
    destContent := "X"
    backupRootExists := false
    backups := [] }

/-! # Theorems -/

/-- Every branch of `sync_configuration` leaves a git clone of the remote
at the destination. -/
theorem sync_configuration_result (now : String) (remote : Remote)
    (fs : FileSystem) :
    (sync_configuration now remote fs).destContent = remote.content
    ∧ (sync_configuration now remote fs).destExists = true
    ∧ (sync_configuration now remote fs).destHasGit = true := by
  unfold sync_configuration
  by_cases h1 : fs.destExists
  · by_cases h2 : fs.destHasGit <;> simp [h1, h2]
  · simp [h1]

/-- Claim C1, counterexample: the Content Patcher is not idempotent.
Patching an empty `user.bind` twice differs from patching it once, and
an empty preferences file patched twice holds two `\path_prefix`
directives, not one — the append has no presence guard. -/
theorem patch_not_idempotent_cex :
    (patch_user_bind (patch_user_bind "") == patch_user_bind "") = false
    ∧ countOccur pathPrefixMarker
        (patch_preferences "/TB" (patch_preferences "/TB" "")) = 2 := by
  exact ⟨by decide, by decide⟩

/-- Claim C1, amended: the patches of install.py lines 322-344 append
their directive block unconditionally (`open(..., "a")`, no presence
check), so repatching appends the block again; a preferences file
lacking a path-prefix directive holds exactly one after patching, and
exactly two after patching twice. -/
theorem patch_appends_unconditionally (tb t : String) :
    patch_preferences tb (patch_preferences tb t)
      = patch_preferences tb t ++ texBlock tb
    ∧ patch_user_bind (patch_user_bind t) = patch_user_bind t ++ bindBlock
    ∧ countOccur pathPrefixMarker (patch_preferences "/TB" "") = 1
    ∧ countOccur pathPrefixMarker
        (patch_preferences "/TB" (patch_preferences "/TB" "")) = 2 := by
  exact ⟨rfl, rfl, by decide, by decide⟩

/-- Claim C2: the Reconciliation Controller is convergent.  For every
initial destination state (absent, version-controlled, or plain data)
and unchanged remote, the destination content after a second
`sync_configuration` equals the content after the first, and after any
run the destination is in the VersionControlled state, so a re-run —
in particular one following a backup-and-clone — lands directly in the
pull branch. -/
theorem reconciliation_convergent (now1 now2 : String) (remote : Remote)
    (fs : FileSystem) :
    (sync_configuration now2 remote (sync_configuration now1 remote fs)).destContent
      = (sync_configuration now1 remote fs).destContent
    ∧ detect (sync_configuration now1 remote fs) = DestState.VersionControlled := by
  have h1 := sync_configuration_result now1 remote fs
  have h2 := sync_configuration_result now2 remote (sync_configuration now1 remote fs)
  refine ⟨h2.1.trans h1.1.symm, ?_⟩
  unfold detect
  simp [h1.2.1, h1.2.2]

/-- Claim C3: exactly when the destination exists and is not
git-tracked, its entire prior content is moved into a backup entry
`lyx_backup_<timestamp>` under the backup root (created if absent);
the backup holds the prior content exactly; existing backups survive
every run (never overwritten, never auto-deleted: the old backup list
is a suffix of the new one); and only then is the destination
overwritten with the fetched remote content. -/
theorem plain_data_backup_exact (now : String) (remote : Remote)
    (fs : FileSystem) :
    (sync_configuration now remote fs).backups
      = (if fs.destExists && !fs.destHasGit
          then ("lyx_backup_" ++ now, fs.destContent) :: fs.backups
          else fs.backups)
    ∧ (sync_configuration now remote fs).backupRootExists
      = (fs.backupRootExists || (fs.destExists && !fs.destHasGit))
    ∧ fs.backups <:+ (sync_configuration now remote fs).backups
    ∧ (sync_configuration now remote fs).destContent = remote.content := by
  unfold sync_configuration
  by_cases h1 : fs.destExists
  · by_cases h2 : fs.destHasGit
    · simp [h1, h2]
    · simp [h1, h2, List.suffix_cons]
  · simp [h1]

/-- Claim C5, counterexample: a destination that is git-tracked but
points at an unrelated remote is NOT backed up and re-cloned — the
controller takes the pull branch (no backup entry is created and the
clone keeps its unrelated remote), because lines 67-70 of Script.py
test only the existence of `.git`. -/
theorem git_other_remote_pulled_cex :
    fsGitOther.destHasGit = true
    ∧ (fsGitOther.destRemote == GIT_REPO_URL) = false
    ∧ (sync_configuration "20240101_000000" remoteMain fsGitOther).backups = []
    ∧ (sync_configuration "20240101_000000" remoteMain fsGitOther).destRemote
      = "https://example.com/unrelated.git" := by
  exact ⟨rfl, by decide, rfl, rfl⟩

/-- Claim C5, amended: classification is based solely on the existence
of a `.git` entry — the remote URL is never consulted.  Any existing
git-tracked destination, whatever remote its clone records, is pulled
in place: no backup is made and the recorded remote is unchanged. -/
theorem sync_pulls_any_git_remote (now : String) (remote : Remote)
    (fs : FileSystem) (hex : fs.destExists = true)
    (hgit : fs.destHasGit = true) :
    (sync_configuration now remote fs).backups = fs.backups
    ∧ (sync_configuration now remote fs).destRemote = fs.destRemote
    ∧ (sync_configuration now remote fs).destContent = remote.content := by
  unfold sync_configuration
  simp [hex, hgit]

/-- Claim C5, witness: the amended theorem applied to the git-tracked
destination with the unrelated remote. -/
theorem sync_pulls_any_git_remote_witness :
    (sync_configuration "T" remoteMain fsGitOther).backups = fsGitOther.backups
    ∧ (sync_configuration "T" remoteMain fsGitOther).destRemote
      = fsGitOther.destRemote
    ∧ (sync_configuration "T" remoteMain fsGitOther).destContent
      = remoteMain.content :=
  sync_pulls_any_git_remote "T" remoteMain fsGitOther rfl rfl

/-- Claim C4, counterexample: install.py's resolver does not give the
sandbox path priority.  On a Linux host where the flatpak config root
exists, `get_lyx_user_directory` of install.py returns `~/.lyx`, which
is not the sandbox path. -/
theorem install_resolver_ignores_sandbox_cex :
    hostLinuxSandbox.flatpakPathExists = true
    ∧ get_lyx_user_directory_install hostLinuxSandbox = some "/home/u/.lyx"
    ∧ flatpakPath hostLinuxSandbox = "/home/u/.var/app/org.lyx.LyX/config/lyx"
    ∧ (("/home/u/.lyx" : String) == "/home/u/.var/app/org.lyx.LyX/config/lyx")
      = false := by
  exact ⟨rfl, by decide, by decide, by decide⟩

/-- Claim C4, amended: only test.py's resolver gives the sandbox path
absolute priority — whenever the flatpak config root exists it is
returned immediately, by a pure existence check; install.py's resolver
never consults the sandbox path, and on Linux returns `~/.lyx`
unconditionally. -/
theorem resolver_sandbox_priority_amended (h : Host)
    (hfp : h.flatpakPathExists = true) :
    get_lyx_user_directory_test h = some (flatpakPath h)
    ∧ (h.platform = HostPlatform.linux →
        get_lyx_user_directory_install h = some (h.home ++ "/.lyx")) := by
  constructor
  · unfold get_lyx_user_directory_test
    simp [hfp]
  · intro hl
    unfold get_lyx_user_directory_install
    rw [hl]

/-- Claim C4, witness: the amended theorem at the Linux host with the
sandbox path present. -/
theorem resolver_sandbox_priority_amended_witness :
    get_lyx_user_directory_test hostLinuxSandbox
      = some (flatpakPath hostLinuxSandbox)
    ∧ (hostLinuxSandbox.platform = HostPlatform.linux →
        get_lyx_user_directory_install hostLinuxSandbox
          = some (hostLinuxSandbox.home ++ "/.lyx")) :=
  resolver_sandbox_priority_amended hostLinuxSandbox rfl

/-- Each `download_file` call leaves exactly one trace entry — a written
file or a printed error — whatever its outcome. -/
theorem download_file_count (fetch : String → Fetch) (mkdirOk : String → Bool)
    (u f n : String) (w : TestWorld) :
    (download_file fetch mkdirOk u f n w).files.length
      + (download_file fetch mkdirOk u f n w).errors.length
      = w.files.length + w.errors.length + 1 := by
  unfold download_file
  cases hm : mkdirOk f
  · simp [hm]
    omega
  · cases hf : fetch u <;> simp [hm, hf] <;> omega

/-- Folding `download_file` over a list of assets adds one trace entry
per asset: every asset is processed, none is skipped because an earlier
one failed. -/
theorem download_fold_count (fetch : String → Fetch) (mkdirOk : String → Bool)
    (l : List (String × String × String)) (w : TestWorld) :
    ((l.foldl (fun acc t => download_file fetch mkdirOk t.1 t.2.1 t.2.2 acc) w).files.length
      + (l.foldl (fun acc t => download_file fetch mkdirOk t.1 t.2.1 t.2.2 acc) w).errors.length)
      = w.files.length + w.errors.length + l.length := by
  induction l generalizing w with
  | nil => simp
  | cons a tl ih =>
      have h1 := download_file_count fetch mkdirOk a.1 a.2.1 a.2.2 w
      have h2 := ih (download_file fetch mkdirOk a.1 a.2.1 a.2.2 w)
      simp only [List.foldl_cons, List.length_cons]
      omega

/-- Claim C6, counterexample: with a resolved directory and every fetch
failing, test.py still exits with status 0 — it writes no file and
prints four errors, but nothing makes the exit status non-zero. -/
theorem test_exit_zero_on_failure_cex :
    (test_main (some "/home/u/.lyx") failAllFetch allDirsOk emptyTestWorld).1 = 0
    ∧ (test_main (some "/home/u/.lyx") failAllFetch allDirsOk emptyTestWorld).2.files = []
    ∧ (test_main (some "/home/u/.lyx") failAllFetch allDirsOk emptyTestWorld).2.errors.length
      = 4 := by
  exact ⟨rfl, by decide, by decide⟩

/-- Claim C6, amended: per-asset failures are isolated — every one of
the four assets is processed regardless of other assets' outcomes (one
trace entry each) — and a run-level resolution failure aborts
immediately with exit status 1 before touching any asset; but the exit
status is 0 whenever resolution succeeds, even if every asset failed.
(In Script.py, `run_command` with `check=True` exits the process with
status 1 on any failed command.) -/
theorem test_failures_isolated_amended (fetch : String → Fetch)
    (mkdirOk : String → Bool) (dir : String) (w : TestWorld) :
    test_main none fetch mkdirOk w = (1, w)
    ∧ (test_main (some dir) fetch mkdirOk w).1 = 0
    ∧ (test_main (some dir) fetch mkdirOk w).2.files.length
        + (test_main (some dir) fetch mkdirOk w).2.errors.length
      = w.files.length + w.errors.length + 4
    ∧ run_command true false = some 1 := by
  refine ⟨rfl, rfl, ?_, rfl⟩
  have h := download_fold_count fetch mkdirOk (test_assets dir) w
  simpa [test_main, test_assets] using h

/-- Claim C7, counterexample: the fetchers write the buffered body
directly to the final path (`open(local_path, 'wb')`, no temporary file,
no rename), so a write interrupted after 3 bytes leaves the destination
truncated — holding neither its old content nor the fetched content. -/
theorem download_truncates_on_write_failure_cex :
    destAfterDownload (some "OLD") (HttpFetch.ok "NEWDATA")
        (WriteOutcome.failedAfter 3) = some "NEW"
    ∧ (("NEW" : String) == "OLD") = false
    ∧ (("NEW" : String) == "NEWDATA") = false := by
  exact ⟨by decide, by decide, by decide⟩

/-- Claim C7, amended: fetch-stage failures (timeout, connection error,
non-2xx status, interrupted transfer) leave the destination untouched,
because both fetchers buffer the entire body in memory before opening
the destination; but no write-to-temp-then-move discipline is used —
the completed body is written directly to the final path, and a failure
during that local write leaves exactly the first `k` bytes in place. -/
theorem download_atomicity_amended (old : Option String) (wr : WriteOutcome)
    (c : String) (k code : Nat) :
    destAfterDownload old HttpFetch.timedOut wr = old
    ∧ destAfterDownload old HttpFetch.connError wr = old
    ∧ destAfterDownload old (HttpFetch.httpError code) wr = old
    ∧ destAfterDownload old HttpFetch.interrupted wr = old
    ∧ destAfterDownload old (HttpFetch.ok c) WriteOutcome.completed = some c
    ∧ destAfterDownload old (HttpFetch.ok c) (WriteOutcome.failedAfter k)
      = some (c.take k) := by
  exact ⟨rfl, rfl, rfl, rfl, rfl, rfl⟩

/-- Claim C8, counterexample: test.py's `download_file` performs its GET
through `urllib.request.urlopen` with no timeout argument — the fetch of
the preferences asset (and of every other asset) carries no bound and
may block indefinitely. -/
theorem urlopen_no_timeout_cex :
    (download_file_request LYX_PREFRENCES_URL).timeout = none
    ∧ (download_file_request LYX_BIND_URL).timeout = none := by
  exact ⟨rfl, rfl⟩

/-- Claim C8, amended: only install.py's `download_github_file` bounds
its GET, with a 5-second timeout; test.py's `download_file` passes no
timeout to `urlopen`. -/
theorem fetch_timeout_amended (url : String) :
    (download_github_file_request url).timeout = some 5
    ∧ (download_file_request url).timeout = none := by
  exact ⟨rfl, rfl⟩

/-- Claim C9: the single-file download operations return normally on
every modelled input, exceptions included.  `download_github_file`
yields `True` exactly when every step succeeded — nonempty arguments,
directory created, GET returned a body, write completed — and exactly
then the file is recorded; `download_file` yields its world back with
an error line printed on a failed fetch, and the written file on a
successful one. -/
theorem download_never_raises (u f n : String) (mk : Bool) (fe : HttpFetch)
    (wr : Bool) (w : InstallWorld) (c m url folder name : String)
    (w2 : TestWorld) :
    (download_github_file u f n mk fe wr w).1
      = (!(u == "") && !(f == "") && !(n == "") && mk && wr && fe.isOk)
    ∧ (download_github_file u f n mk (HttpFetch.ok c) wr w).2.files
      = (if (u == "" || f == "" || n == "") || !mk || !wr then w.files
         else (joinPath f n, c) :: w.files)
    ∧ download_file (fun _ => Fetch.err m) (fun _ => true) url folder name w2
      = { w2 with
            errors := ("Error downloading " ++ name ++ ": " ++ m) :: w2.errors }
    ∧ download_file (fun _ => Fetch.ok c) (fun _ => true) url folder name w2
      = { w2 with files := (joinPath folder name, c) :: w2.files } := by
  refine ⟨?_, ?_, rfl, rfl⟩
  · cases hu : u == "" <;> cases hf : f == "" <;> cases hn : n == ""
      <;> cases mk <;> cases wr <;> cases fe
      <;> simp [download_github_file, HttpFetch.isOk, hu, hf, hn]
  · cases hu : u == "" <;> cases hf : f == "" <;> cases hn : n == ""
      <;> cases mk <;> cases wr
      <;> simp [download_github_file, hu, hf, hn]

/-- The module-level download target `/home/uri/test` never lies at or
under the `~/.lyx` directory that install.py's resolver yields on
Linux, whatever the home directory: the directory name ends in ".lyx",
but no path-separator boundary of "/home/uri/test" does (the target
contains no 'x' at all). -/
theorem not_under_lyx_dir (home : String) :
    pathUnderB (home ++ "/.lyx") "/home/uri/test" = false := by
  have hx : 'x' ∈ (home ++ "/.lyx").toList := by
    have hd : (home ++ "/.lyx").toList
        = home.toList ++ ("/.lyx" : String).toList := String.data_append home _
    rw [hd]
    exact List.mem_append_right _ (by decide)
  have hxt : 'x' ∉ ("/home/uri/test" : String).toList := by decide
  unfold pathUnderB
  rw [Bool.or_eq_false_iff]
  refine ⟨?_, ?_⟩
  · rw [beq_eq_false_iff_ne]
    intro hEq
    exact hxt (hEq ▸ hx)
  · by_contra hpre
    rw [Bool.not_eq_false] at hpre
    have hp : ((home ++ "/.lyx") ++ "/").toList
        <+: ("/home/uri/test" : String).toList :=
      List.isPrefixOf_iff_prefix.mp hpre
    refine hxt (hp.subset ?_)
    have hd2 : ((home ++ "/.lyx") ++ "/").toList
        = (home ++ "/.lyx").toList ++ ("/" : String).toList :=
      String.data_append _ _
    rw [hd2]
    exact List.mem_append_left _ hx

/-- Claim C10: every execution of install.py — importing it as a module
(`runAsMain = false`) as well as running it directly — performs, as its
very first effect and before any installation logic, a download of the
preferences asset into the fixed path `/home/uri/test`; that path is
independent of the resolved LyX user directory and lies outside the
`~/.lyx` configuration tree install.py's resolver yields on Linux, for
every home directory. -/
theorem install_module_level_download (runAsMain : Bool) (home : String) :
    (installModuleTrace runAsMain).head?
      = some (Effect.download LYX_PREFRENCES_URL "/home/uri" "test")
    ∧ joinPath "/home/uri" "test" = "/home/uri/test"
    ∧ pathUnderB (home ++ "/.lyx") "/home/uri/test" = false
    ∧ get_lyx_user_directory_install
        { platform := HostPlatform.linux
          home := home
          flatpakPathExists := false
          appdata := none
          appdataContents := []
          appSupportExists := false
          appSupportContents := [] } = some (home ++ "/.lyx") := by
  exact ⟨rfl, by decide, not_under_lyx_dir home, rfl⟩
